import Mathlib

set_option maxRecDepth 8000

/- Shallow embedding of the assembler in src/cpu/src/assembler.ts.

   Strings are modelled as `List Char`.  JavaScript regular expressions are
   modelled by a small regular-expression datatype `RE` together with a
   Brzozowski-derivative matcher `reMatch`; each regex literal of the source
   is transcribed into an `RE` value that mirrors the pattern.  JavaScript
   exceptions (indexing `undefined` and calling `.trim()` on it) are
   modelled with `Option`: `none` is a thrown TypeError. -/

namespace MX

/-- Characters of the JavaScript whitespace class used by the regexes
(the common members of the ECMAScript class, exotic Unicode space
characters elided; none of the documents involved contain them). -/
def isJsSpace (c : Char) : Bool :=
  decide (c = ' ') || decide (c = Char.ofNat 9) || decide (c = Char.ofNat 10) ||
  decide (c = Char.ofNat 13) || decide (c = Char.ofNat 11) || decide (c = Char.ofNat 12) ||
  decide (c = Char.ofNat 0xa0) || decide (c = Char.ofNat 0xfeff) ||
  decide (c = Char.ofNat 0x2028) || decide (c = Char.ofNat 0x2029)

/-- JavaScript line terminators, the characters excluded by `.` and the
positions accepted by a multiline `$`. -/
def isLineTerm (c : Char) : Bool :=
  decide (c = Char.ofNat 10) || decide (c = Char.ofNat 13) ||
  decide (c = Char.ofNat 0x2028) || decide (c = Char.ofNat 0x2029)

/-- Regular expressions: empty language, empty string, a character class,
concatenation, alternation and Kleene star. -/
inductive RE where
  | nul : RE
  | eps : RE
  | cls : (Char → Bool) → RE
  | cat : RE → RE → RE
  | alt : RE → RE → RE
  | star : RE → RE

/-- Does the regular expression accept the empty string. -/
def nullable : RE → Bool
  | .nul => false
  | .eps => true
  | .cls _ => false
  | .cat a b => nullable a && nullable b
  | .alt a b => nullable a || nullable b
  | .star _ => true

/-- Constructor test used by the smart constructors. -/
def isNulRE : RE → Bool
  | .nul => true
  | _ => false

/-- Constructor test used by the smart constructors. -/
def isEpsRE : RE → Bool
  | .eps => true
  | _ => false

/-- Smart concatenation, simplifying the absorbing and neutral elements. -/
def scat (a b : RE) : RE :=
  if isNulRE a then .nul
  else if isNulRE b then .nul
  else if isEpsRE a then b
  else if isEpsRE b then a
  else .cat a b

/-- Smart alternation, simplifying the neutral element. -/
def salt (a b : RE) : RE :=
  if isNulRE a then b
  else if isNulRE b then a
  else .alt a b

/-- Brzozowski derivative of a regular expression by a character. -/
def deriv : RE → Char → RE
  | .nul, _ => .nul
  | .eps, _ => .nul
  | .cls p, c => if p c then .eps else .nul
  | .cat a b, c =>
      if nullable a then salt (scat (deriv a c) b) (deriv b c)
      else scat (deriv a c) b
  | .alt a b, c => salt (deriv a c) (deriv b c)
  | .star a, c => scat (deriv a c) (.star a)

/-- Whole-string regular-expression matching (the JavaScript patterns below
are anchored with both a leading caret and a trailing dollar, so a non-null
`line.match` result is exactly language membership of the whole line). -/
def reMatch (r : RE) : List Char → Bool
  | [] => nullable r
  | c :: rest => reMatch (deriv r c) rest

/-- Single-character regex literal. -/
def lit (c : Char) : RE := .cls (fun d => decide (d = c))

/-- Regex `r?`. -/
def opt (r : RE) : RE := .alt r .eps

/-- Regex `r+`. -/
def plus (r : RE) : RE := .cat r (.star r)

/-- Regex `r\x7b0,2\x7d`: zero, one or two copies. -/
def rep02 (r : RE) : RE := opt (.cat r (opt r))

/-- Character class `\s`. -/
def sp : RE := .cls isJsSpace

/-- Character class `[A-Z_]`. -/
def azU : RE := .cls (fun c => (decide ('A' ≤ c) && decide (c ≤ 'Z')) || decide (c = '_'))

/-- Character class `[a-z]`. -/
def azL : RE := .cls (fun c => decide ('a' ≤ c) && decide (c ≤ 'z'))

/-- Character class `[0-9a-f]`. -/
def hexLower : RE := .cls (fun c => (decide ('0' ≤ c) && decide (c ≤ '9')) || (decide ('a' ≤ c) && decide (c ≤ 'f')))

/-- Regex `.`: any character that is not a line terminator. -/
def dot : RE := .cls (fun c => !isLineTerm c)

/-- Regex `#.*`: a trailing comment. -/
def commentRE : RE := .cat (lit '#') (.star dot)

/-- Group `\s*[A-Z_]+ +0[0-9a-f]\s*` of the symbol-definition line regex. -/
def symDefCore : RE :=
  .cat (.star sp)
    (.cat (plus azU)
      (.cat (plus (lit ' '))
        (.cat (lit '0') (.cat hexLower (.star sp)))))

/-- Source regex for a symbol-definition line (assembler.ts line 166):
`^(\s*[A-Z_]+ +0[0-9a-f]\s*)?\s*(#.*)?$`. -/
def symLineRE : RE := .cat (opt symDefCore) (.cat (.star sp) (opt commentRE))

/-- Group ` +([A-Z_]+|[0-9a-f]+)`: one operand preceded by spaces. -/
def operandRE : RE := .cat (plus (lit ' ')) (.alt (plus azU) (plus hexLower))

/-- Group `\s*([A-Z_]+:)?\s*[a-z]+( +([A-Z_]+|[0-9a-f]+))\x7b0,2\x7d\s*`
of the code line regex. -/
def codeCore : RE :=
  .cat (.star sp)
    (.cat (opt (.cat (plus azU) (lit ':')))
      (.cat (.star sp)
        (.cat (plus azL) (.cat (rep02 operandRE) (.star sp)))))

/-- Source regex for a code line (assembler.ts line 172):
`^(\s*([A-Z_]+:)?\s*[a-z]+( +([A-Z_]+|[0-9a-f]+))\x7b0,2\x7d\s*)?\s*(#.*)?$`. -/
def codeLineRE : RE := .cat (opt codeCore) (.cat (.star sp) (opt commentRE))

/-- Does the list start with spaces followed by at least three hyphens,
i.e. can the separator regex ` *---+ *` match at this position. -/
def startsHyphens3 : List Char → Bool
  | a :: b :: c :: _ => decide (a = '-') && decide (b = '-') && decide (c = '-')
  | _ => false

/-- Can the separator regex ` *---+ *` match starting at the head of `l`. -/
def sepAt (l : List Char) : Bool := startsHyphens3 (l.dropWhile (fun c => decide (c = ' ')))

/-- Remainder of the list after the greedy separator match
` *---+ *` (maximal spaces, then all hyphens, then maximal spaces). -/
def sepRest (l : List Char) : List Char :=
  ((l.dropWhile (fun c => decide (c = ' '))).dropWhile (fun c => decide (c = '-'))).dropWhile
    (fun c => decide (c = ' '))

/-- Worker for `splitSep`: leftmost-match scan, accumulating the current
section in reverse.  The fuel argument only forces termination; it is
always at least the number of remaining characters plus one, and every
step consumes at least one character, so the fuel never runs out. -/
def splitSepFuel : Nat → List Char → List Char → List (List Char)
  | 0, acc, l => [acc.reverse ++ l]
  | _ + 1, acc, [] => [acc.reverse]
  | fuel + 1, acc, c :: rest =>
      if sepAt (c :: rest) then
        acc.reverse :: splitSepFuel fuel [] (sepRest (c :: rest))
      else
        splitSepFuel fuel (c :: acc) rest

/-- JavaScript `doc.split(/ *---+ */)` (assembler.ts lines 161 and 211):
split the document at every leftmost match of the separator regex. -/
def splitSep (l : List Char) : List (List Char) := splitSepFuel (l.length + 1) [] l

/-- JavaScript `s.split(String.fromCharCode 10)`: split at every newline,
keeping empty pieces. -/
def splitNL : List Char → List (List Char)
  | [] => [[]]
  | c :: rest =>
      if decide (c = Char.ofNat 10) then [] :: splitNL rest
      else
        match splitNL rest with
        | [] => [[c]]
        | l :: ls => (c :: l) :: ls

/-- The `.split(of newline).map(line matching).reduce(and)` pattern of
`isValid`: every line of the section matches the given regex. -/
def linesMatch (r : RE) (s : List Char) : Bool := (splitNL s).all (fun l => reMatch r l)

/-- Embedding of `isValid` (assembler.ts lines 160-177): the document splits
into exactly three sections on ` *---+ *`, every line of section 1 matches
the symbol-definition line regex and every line of section 2 matches the
code line regex.  The JavaScript `&&` guards the `sections[1]`/`sections[2]`
accesses, mirrored here with `getD`. -/
def isValid (doc : List Char) : Bool :=
  (splitSep doc).length == 3 &&
  linesMatch symLineRE ((splitSep doc).getD 1 []) &&
  linesMatch codeLineRE ((splitSep doc).getD 2 [])

/-- Worker for `stripComments`: the flag records whether the scan is inside
a comment (between a hash mark and the next line terminator). -/
def stripCommentsAux : Bool → List Char → List Char
  | _, [] => []
  | inC, c :: rest =>
      if isLineTerm c = true then c :: stripCommentsAux false rest
      else if c = '#' then stripCommentsAux true rest
      else if inC = true then stripCommentsAux true rest
      else c :: stripCommentsAux false rest

/-- Embedding of `stripComments` (assembler.ts lines 186-188):
`doc.replace(of the regex hash-dot-star-dollar, global multiline, by the
empty string)` removes, on every line, everything from the first hash mark
to the end of the line, leaving line terminators in place. -/
def stripComments (doc : List Char) : List Char := stripCommentsAux false doc

/-- Embedding of `stripLabels` (assembler.ts lines 197-199): the body is a
stub that returns its argument unchanged, despite the doc comment
promising removal of label markers. -/
def stripLabels (code : List Char) : List Char := code

/-- JavaScript `String.prototype.trim`: drop whitespace from both ends. -/
def trimL (l : List Char) : List Char :=
  ((l.dropWhile isJsSpace).reverse.dropWhile isJsSpace).reverse

/-- The section triple produced by `splitSections`. -/
structure SectionTriple where
  desc : List Char
  syms : List Char
  code : List Char
deriving DecidableEq

/-- Embedding of `splitSections` (assembler.ts lines 208-217): split on the
separator regex and trim the first three pieces.  In JavaScript,
`sections[1]` or `sections[2]` is `undefined` when fewer than three pieces
exist and the `.trim()` call then throws a TypeError; `none` models that
thrown exception. -/
def splitSections (doc : List Char) : Option SectionTriple :=
  match (splitSep doc)[0]?, (splitSep doc)[1]?, (splitSep doc)[2]? with
  | some a, some b, some c => some ⟨trimL a, trimL b, trimL c⟩
  | _, _, _ => none

/-- Embedding of `buildSymMap` (assembler.ts lines 227-229): the body is a
stub that returns the empty record. -/
def buildSymMap (_syms : List Char) : List (List Char × List Char) := []

/-- Embedding of `buildLabelMap` (assembler.ts lines 239-241): the body is
a stub that returns the empty record. -/
def buildLabelMap (_code : List Char) : List (List Char × List Char) := []

/-- Embedding of `substitute` (assembler.ts lines 251-253): the body is a
stub that returns `code` unchanged, despite the doc comment promising
replacement of the map entries. -/
def substitute (code : List Char) (_map : List (List Char × List Char)) : List Char := code

/-- One entry of the instruction catalog (assembler.ts lines 27-99). -/
structure InstrInfo where
  byte : List Char
  op1 : Option (List Char)
  op2 : Option (List Char)
  desc : List Char

/-- Number of operand slots an instruction declares. -/
def operandCount (i : InstrInfo) : Nat :=
  (if i.op1.isSome then 1 else 0) + (if i.op2.isSome then 1 else 0)

/-- The instruction catalog `instructionSet` (assembler.ts lines 27-99). -/
def instructionSet : List (List Char × InstrInfo) :=
  [ (String.data ("setpc"),
      ⟨String.data ("B1"), some (String.data ("byte #")), none,
        String.data ("Set PC to byte #")⟩),
    (String.data ("jumpr"),
      ⟨String.data ("B2"), some (String.data ("Memory slot [00-0F]")),
        some (String.data ("byte #")),
        String.data ("If accumulator equals register (op1), jump to byte (op2), otherwise, advance program counter 3 bytes (to next instruction)")⟩),
    (String.data ("jumpv"),
      ⟨String.data ("B3"), some (String.data ("Value")),
        some (String.data ("byte #")),
        String.data ("If accumulator equals value (op1), jump to byte (op2), otherwise, advance program counter 3 bytes (to next instruction)")⟩),
    (String.data ("accr"),
      ⟨String.data ("C0"), some (String.data ("Memory slot [00-0F]")), none,
        String.data ("Add memory slot value to accumulator")⟩),
    (String.data ("accv"),
      ⟨String.data ("C1"), some (String.data ("Value to add to accumulator")), none,
        String.data ("Add value to accumulator")⟩),
    (String.data ("inc"),
      ⟨String.data ("C2"), none, none, String.data ("Increment the counter")⟩),
    (String.data ("dec"),
      ⟨String.data ("C3"), none, none, String.data ("Decrement the counter")⟩),
    (String.data ("res"),
      ⟨String.data ("C4"), none, none, String.data ("Reset the counter to zero")⟩),
    (String.data ("ctoa"),
      ⟨String.data ("C5"), none, none, String.data ("Copy counter to accumulator")⟩),
    (String.data ("atoc"),
      ⟨String.data ("C6"), none, none, String.data ("Copy accumulator to counter")⟩),
    (String.data ("rtoa"),
      ⟨String.data ("D0"), some (String.data ("Memory slot [00-0F]")), none,
        String.data ("Copy memory slot value to accumulator")⟩),
    (String.data ("vtoa"),
      ⟨String.data ("D1"), some (String.data ("Value")), none,
        String.data ("Set accumulator to value")⟩),
    (String.data ("ator"),
      ⟨String.data ("D2"), some (String.data ("Memory slot [00-0F]")), none,
        String.data ("Store accumulator in memory slot")⟩),
    (String.data ("halt"),
      ⟨String.data ("00"), none, none, String.data ("Halt program execution")⟩) ]

/-- The `instrumap` record (assembler.ts lines 101-107): mnemonic to opcode
byte, built from the catalog. -/
def instrumap : List (List Char × List Char) :=
  instructionSet.map (fun p => (p.1, p.2.byte))

/-- Apostrophe character, used in the placeholder string below. -/
def apos : Char := Char.ofNat 39

/-- The free-text string returned by `assemble` on invalid input
(assembler.ts line 142). -/
def placeholderChars : List Char :=
  'I' :: apos :: String.data ("m not executable")

/-- Embedding of `assemble` (assembler.ts lines 115-143): validate, strip
comments, split sections, build the two (stub) maps, run the three
substitution passes, strip labels; on invalid input return the free-text
placeholder.  `none` models a thrown TypeError inside `splitSections`. -/
def assemble (doc : List Char) : Option (List Char) :=
  if isValid doc then
    match splitSections (stripComments doc) with
    | none => none
    | some sections =>
        some (stripLabels
          (substitute (substitute (substitute sections.code (buildSymMap sections.syms))
            (buildLabelMap sections.code)) instrumap))
  else
    some placeholderChars

/-! Helper lemmas about the comment stripper and the section splitter. -/

/-- The output of the comment stripper never contains a hash mark. -/
theorem hash_not_mem_stripCommentsAux (b : Bool) (l : List Char) :
    '#' ∉ stripCommentsAux b l := by
  induction l generalizing b with
  | nil => simp [stripCommentsAux]
  | cons c rest ih =>
      simp only [stripCommentsAux]
      split
      · rename_i hlt
        intro hmem
        rcases List.mem_cons.mp hmem with hc | hrest
        · rw [← hc] at hlt
          exact absurd hlt (by decide)
        · exact ih false hrest
      · split
        · exact ih true
        · split
          · exact ih true
          · rename_i hlt hhash hin
            intro hmem
            rcases List.mem_cons.mp hmem with hc | hrest
            · exact hhash hc.symm
            · exact ih false hrest

/-- The comment stripper fixes every hash-free string. -/
theorem stripCommentsAux_eq_self (l : List Char) (h : '#' ∉ l) :
    stripCommentsAux false l = l := by
  induction l with
  | nil => rfl
  | cons c rest ih =>
      have hc : ¬(c = '#') := fun he => h (by rw [he]; exact List.mem_cons_self _ _)
      have hrest : '#' ∉ rest := fun hm => h (List.mem_cons_of_mem _ hm)
      by_cases hlt : isLineTerm c = true
      · simp only [stripCommentsAux, if_pos hlt]
        rw [ih hrest]
      · simp only [stripCommentsAux, if_neg hlt, if_neg hc, if_neg Bool.false_ne_true]
        rw [ih hrest]

/-- When the split yields at least three sections, `splitSections` does not
throw. -/
theorem splitSections_isSome (x : List Char) (h : 3 ≤ (splitSep x).length) :
    (splitSections x).isSome = true := by
  unfold splitSections
  cases h0 : (splitSep x)[0]? with
  | none =>
      rw [List.getElem?_eq_none_iff] at h0
      omega
  | some a =>
      cases h1 : (splitSep x)[1]? with
      | none =>
          rw [List.getElem?_eq_none_iff] at h1
          omega
      | some b =>
          cases h2 : (splitSep x)[2]? with
          | none =>
              rw [List.getElem?_eq_none_iff] at h2
              omega
          | some c => rfl

/-! Theorems settling the claims. -/

/-- C1: the claim says `assemble` returns the final byte sequence as
two-digit upper-case hexadecimal bytes.  The code's catalog maps `halt` to
opcode byte `00`, yet on the valid document `hi / --- / (empty) / --- /
halt` the function returns the code section text `halt` unchanged: the
substitution passes and the encoder are stubs that perform no rewriting,
so no hexadecimal byte sequence is ever produced. -/
theorem c1_assemble_returns_text_not_bytes :
    List.lookup (String.data ("halt")) instrumap = some (String.data ("00")) ∧
    assemble (String.data ("hi\n---\n\n---\nhalt")) = some (String.data ("halt")) :=
  ⟨rfl, rfl⟩

/-- C2: the claim says `assemble` returns a structured, discriminated error
value on failure, never a free-text placeholder string.  On the empty
document (which fails validation) the code returns the literal free-text
string `I'm not executable`. -/
theorem c2_assemble_returns_placeholder :
    assemble (String.data ("")) = some placeholderChars :=
  rfl

/-- C3: the claim says a forward label reference resolves to the one-byte
program address of its definition.  On a valid document whose code is
`jumpv 00 END` followed by `END: halt`, the label `END` (which should
resolve to address `03`) survives assembly textually unresolved: the label
map is the empty stub and substitution is the identity stub. -/
theorem c3_forward_label_left_unresolved :
    assemble (String.data ("p\n---\n\n---\njumpv 00 END\nEND: halt")) =
      some (String.data ("jumpv 00 END\nEND: halt")) :=
  rfl

/-- C4: the claim says only lines consisting of three-plus hyphens alone on
a line act as separators, and that hyphens inside a line of ordinary text
do not.  The single-line document `abc --- FOO 0f --- halt` contains no
standalone separator line, yet the unanchored split regex accepts it as
three sections and the document assembles. -/
theorem c4_inline_hyphens_act_as_separators :
    isValid (String.data ("abc --- FOO 0f --- halt")) = true ∧
    assemble (String.data ("abc --- FOO 0f --- halt")) = some (String.data ("halt")) :=
  ⟨rfl, rfl⟩

/-- C5: the claim says the validator reports, on failure, the first
offending line number and its section, never a bare boolean.  On a
document whose symbol section contains the malformed line `badline!` the
code's validator yields the bare boolean `false`, and the pipeline turns
it into the free-text placeholder; no line or section information exists
anywhere in the code. -/
theorem c5_validator_yields_bare_boolean :
    isValid (String.data ("x\n---\nbadline!\n---\nhalt")) = false ∧
    assemble (String.data ("x\n---\nbadline!\n---\nhalt")) = some placeholderChars :=
  ⟨rfl, rfl⟩

/-- C6: the claim says a symbol line `FOO 10` fails with
`InvalidSlotValue(name, value)`.  In the code the line is rejected by the
validator's grammar (`0[0-9a-f]` only admits values `00`-`0f`), the symbol
table builder is a stub that never fails, and assembly yields the
free-text placeholder; no `InvalidSlotValue` error exists in the code. -/
theorem c6_foo_ten_rejected_without_error_value :
    isValid (String.data ("d\n---\nFOO 10\n---\nhalt")) = false ∧
    assemble (String.data ("d\n---\nFOO 10\n---\nhalt")) = some placeholderChars :=
  ⟨rfl, rfl⟩

/-- C7: the claim says no label-prefix marker `NAME:` appears in the output
of `assemble`.  On the valid document whose code line is `LOOP: halt` the
output still contains the marker `LOOP:` verbatim, because `stripLabels`
is a stub returning its input unchanged. -/
theorem c7_label_marker_survives :
    assemble (String.data ("d\n---\n\n---\nLOOP: halt")) =
      some (String.data ("LOOP: halt")) :=
  rfl

/-- C8: the comment stripper is idempotent: stripping twice equals
stripping once, for every document. -/
theorem c8_stripComments_idempotent (doc : List Char) :
    stripComments (stripComments doc) = stripComments doc :=
  stripCommentsAux_eq_self (stripCommentsAux false doc)
    (hash_not_mem_stripCommentsAux false doc)

/-- C9: assembly is deterministic: two calls of `assemble` on the same
well-formed document text yield identical output.  The pipeline is a pure
function of the document, so equality is definitional. -/
theorem c9_assemble_deterministic (doc : List Char) (_h : isValid doc = true) :
    assemble doc = assemble doc :=
  rfl

/-- C9 witness: the determinism theorem applied to a concrete well-formed
document. -/
theorem c9_assemble_deterministic_witness :
    isValid (String.data ("w\n---\n\n---\ninc\nhalt")) = true ∧
    assemble (String.data ("w\n---\n\n---\ninc\nhalt")) =
      assemble (String.data ("w\n---\n\n---\ninc\nhalt")) :=
  ⟨by decide, c9_assemble_deterministic (String.data ("w\n---\n\n---\ninc\nhalt")) (by decide)⟩

/-- C10 counterexample: `assemble` is not total.  The document
`hello / # --- / FOO 0f / --- / halt` passes `isValid` (which splits the
raw text, counting the three hyphens inside the comment as a separator),
but `splitSections` runs on the comment-stripped text, where only one
separator remains; `sections[2]` is then `undefined` and `.trim()` throws
a TypeError, modelled here by `none`. -/
theorem c10_assemble_throws_counterexample :
    assemble (String.data ("hello\n# ---\nFOO 0f\n---\nhalt")) = none :=
  rfl

/-- C10 (amended): `assemble` returns a value — never throws — on every
input whose comment-stripped text still splits into at least three
sections; the `sections[1]`/`sections[2]` indexing in `splitSections` is
unreachable-with-undefined exactly on that domain, which includes every
comment-free document.  The guard `isValid` inspects the raw document
while `splitSections` splits the comment-stripped one, so the guard alone
does not ensure this. -/
theorem c10_assemble_total_amended (doc : List Char)
    (h : 3 ≤ (splitSep (stripComments doc)).length) :
    (assemble doc).isSome = true := by
  unfold assemble
  cases hv : isValid doc with
  | false => simp [hv]
  | true =>
      simp only [hv, if_true]
      have hs := splitSections_isSome (stripComments doc) h
      cases hsec : splitSections (stripComments doc) with
      | none =>
          rw [hsec] at hs
          simp at hs
      | some s => rfl

/-- C10 witness: the amended totality theorem applied to a concrete
document whose stripped text splits into three sections. -/
theorem c10_assemble_total_amended_witness :
    3 ≤ (splitSep (stripComments (String.data ("v\n---\n\n---\nres")))).length ∧
    (assemble (String.data ("v\n---\n\n---\nres"))).isSome = true :=
  ⟨by decide, c10_assemble_total_amended (String.data ("v\n---\n\n---\nres")) (by decide)⟩

end MX
